import Mathlib

/-!
A verification development for the `create-revite` project-scaffolding CLI
(`bin/cli.js`).  The CLI is shallowly embedded: the pure pieces (the template
catalog and the exact-string patching of the generated Vite configuration)
become Lean functions on `String`, and the effectful orchestration
(`createProject` and its stages) becomes a pure function from the command-line
arguments and an environment record — capturing the filesystem facts the run
observes, the user's answer to the confirmation prompt, and the exit codes of
the spawned external processes — to the ordered list of effects the run
performs together with its outcome, from which the process exit status is
derived exactly as the top-level `program.action` handler does.
-/

/-- The characters `pat` are a prefix of `s`. -/
def leadsWith : List Char → List Char → Bool
  | [], _ => true
  | _ :: _, [] => false
  | a :: as, b :: bs => (a == b) && leadsWith as bs

/-- `pat` occurs as a contiguous substring of `s` (a successful JS
`String.prototype.indexOf`). -/
def occursIn (pat : List Char) : List Char → Bool
  | [] => pat.isEmpty
  | c :: cs => leadsWith pat (c :: cs) || occursIn pat cs

/-- First-occurrence textual substitution on character lists: the model of JS
`String.prototype.replace` with a plain string pattern (the replacement texts
used by the CLI contain no `$` substitution directives, so the replacement is
inserted verbatim).  When the pattern does not occur the input is returned
unchanged. -/
def replaceFirstChars (pat repl : List Char) : List Char → List Char
  | [] => if pat.isEmpty then repl else []
  | c :: cs =>
    if leadsWith pat (c :: cs) then repl ++ List.drop pat.length (c :: cs)
    else c :: replaceFirstChars pat repl cs

/-- JS `s.replace(pat, repl)` for a plain string pattern. -/
def jsReplace (s pat repl : String) : String :=
  String.mk (replaceFirstChars pat.data repl.data s.data)

/-- JS `s.includes(pat)`: `pat` occurs as a substring of `s`. -/
def containsStr (s pat : String) : Bool :=
  occursIn pat.data s.data

/-- The `basic` application-component text blob from the source template map. -/
def basicTemplate : String := "import reactLogo from \x27./assets/react.svg\x27\nimport viteLogo from \x27/vite.svg\x27\n\nfunction App() \x7b\n  return (\n    <div className=\"min-h-screen bg-gray-100 flex items-center justify-center\">\n      <div className=\"text-center\">\n        <div className=\"flex justify-center space-x-4 mb-8\">\n          <a href=\"https://vitejs.dev\" target=\"_blank\" rel=\"noopener noreferrer\">\n            <img src=\x7bviteLogo\x7d className=\"h-16 w-16 hover:animate-spin\" alt=\"Vite logo\" />\n          </a>\n          <a href=\"https://react.dev\" target=\"_blank\" rel=\"noopener noreferrer\">\n            <img src=\x7breactLogo\x7d className=\"h-16 w-16 hover:animate-spin\" alt=\"React logo\" />\n          </a>\n        </div>\n        <h1 className=\"text-4xl font-bold text-gray-900 mb-4\">\n          Welcome to <span className=\"text-blue-600\">ReVite</span>\n        </h1>\n        <p className=\"text-lg text-gray-600 mb-8\">\n          React + Vite + Tailwind CSS\n        </p>\n        <div className=\"space-x-4\">\n          <button className=\"bg-blue-600 hover:bg-blue-700 text-white font-bold py-2 px-4 rounded transition duration-200\">\n            Get Started\n          </button>\n          <button className=\"bg-gray-200 hover:bg-gray-300 text-gray-800 font-bold py-2 px-4 rounded transition duration-200\">\n            Learn More\n          </button>\n        </div>\n      </div>\n    </div>\n  )\n\x7d\n\nexport default App"

/-- The `dashboard` application-component text blob from the source template map. -/
def dashboardTemplate : String := "function App() \x7b\n  return (\n    <div className=\"min-h-screen bg-gray-50\">\n      \x7b/* Header */\x7d\n      <header className=\"bg-white shadow-sm border-b border-gray-200\">\n        <div className=\"max-w-7xl mx-auto px-4 sm:px-6 lg:px-8\">\n          <div className=\"flex justify-between items-center py-6\">\n            <div className=\"flex items-center\">\n              <h1 className=\"text-2xl font-bold text-gray-900\">Dashboard</h1>\n            </div>\n            <div className=\"flex items-center space-x-4\">\n              <button className=\"bg-blue-600 hover:bg-blue-700 text-white px-4 py-2 rounded-md text-sm font-medium\">\n                New Project\n              </button>\n            </div>\n          </div>\n        </div>\n      </header>\n\n      \x7b/* Main Content */\x7d\n      <main className=\"max-w-7xl mx-auto py-6 sm:px-6 lg:px-8\">\n        \x7b/* Stats */\x7d\n        <div className=\"grid grid-cols-1 gap-5 sm:grid-cols-2 lg:grid-cols-3 mb-8\">\n          <div className=\"bg-white overflow-hidden shadow rounded-lg\">\n            <div className=\"p-5\">\n              <div className=\"flex items-center\">\n                <div className=\"flex-shrink-0\">\n                  <div className=\"w-8 h-8 bg-blue-500 rounded-md flex items-center justify-center\">\n                    <span className=\"text-white font-bold\">P</span>\n                  </div>\n                </div>\n                <div className=\"ml-5 w-0 flex-1\">\n                  <dl>\n                    <dt className=\"text-sm font-medium text-gray-500 truncate\">Total Projects</dt>\n                    <dd className=\"text-lg font-medium text-gray-900\">12</dd>\n                  </dl>\n                </div>\n              </div>\n            </div>\n          </div>\n          <div className=\"bg-white overflow-hidden shadow rounded-lg\">\n            <div className=\"p-5\">\n              <div className=\"flex items-center\">\n                <div className=\"flex-shrink-0\">\n                  <div className=\"w-8 h-8 bg-green-500 rounded-md flex items-center justify-center\">\n                    <span className=\"text-white font-bold\">A</span>\n                  </div>\n                </div>\n                <div className=\"ml-5 w-0 flex-1\">\n                  <dl>\n                    <dt className=\"text-sm font-medium text-gray-500 truncate\">Active</dt>\n                    <dd className=\"text-lg font-medium text-gray-900\">8</dd>\n                  </dl>\n                </div>\n              </div>\n            </div>\n          </div>\n          <div className=\"bg-white overflow-hidden shadow rounded-lg\">\n            <div className=\"p-5\">\n              <div className=\"flex items-center\">\n                <div className=\"flex-shrink-0\">\n                  <div className=\"w-8 h-8 bg-yellow-500 rounded-md flex items-center justify-center\">\n                    <span className=\"text-white font-bold\">C</span>\n                  </div>\n                </div>\n                <div className=\"ml-5 w-0 flex-1\">\n                  <dl>\n                    <dt className=\"text-sm font-medium text-gray-500 truncate\">Completed</dt>\n                    <dd className=\"text-lg font-medium text-gray-900\">4</dd>\n                  </dl>\n                </div>\n              </div>\n            </div>\n          </div>\n        </div>\n\n        \x7b/* Content Area */\x7d\n        <div className=\"bg-white shadow rounded-lg\">\n          <div className=\"px-4 py-5 sm:p-6\">\n            <h3 className=\"text-lg leading-6 font-medium text-gray-900 mb-4\">Recent Activity</h3>\n            <div className=\"space-y-4\">\n              <div className=\"flex items-center justify-between p-4 bg-gray-50 rounded-lg\">\n                <div>\n                  <p className=\"text-sm font-medium text-gray-900\">Project Alpha</p>\n                  <p className=\"text-sm text-gray-500\">Updated 2 hours ago</p>\n                </div>\n                <span className=\"inline-flex items-center px-2.5 py-0.5 rounded-full text-xs font-medium bg-green-100 text-green-800\">\n                  Active\n                </span>\n              </div>\n              <div className=\"flex items-center justify-between p-4 bg-gray-50 rounded-lg\">\n                <div>\n                  <p className=\"text-sm font-medium text-gray-900\">Project Beta</p>\n                  <p className=\"text-sm text-gray-500\">Updated 1 day ago</p>\n                </div>\n                <span className=\"inline-flex items-center px-2.5 py-0.5 rounded-full text-xs font-medium bg-yellow-100 text-yellow-800\">\n                  In Progress\n                </span>\n              </div>\n            </div>\n          </div>\n        </div>\n      </main>\n    </div>\n  )\n\x7d\n\nexport default App"

/-- The `landing` application-component text blob from the source template map. -/
def landingTemplate : String := "function App() \x7b\n  return (\n    <div className=\"min-h-screen bg-white\">\n      \x7b/* Navigation */\x7d\n      <nav className=\"bg-white shadow-sm\">\n        <div className=\"max-w-7xl mx-auto px-4 sm:px-6 lg:px-8\">\n          <div className=\"flex justify-between items-center py-6\">\n            <div className=\"flex items-center\">\n              <span className=\"text-2xl font-bold text-blue-600\">ReVite</span>\n            </div>\n            <div className=\"hidden md:flex items-center space-x-8\">\n              <a href=\"#features\" className=\"text-gray-500 hover:text-gray-900\">Features</a>\n              <a href=\"#pricing\" className=\"text-gray-500 hover:text-gray-900\">Pricing</a>\n              <a href=\"#about\" className=\"text-gray-500 hover:text-gray-900\">About</a>\n              <button className=\"bg-blue-600 hover:bg-blue-700 text-white px-4 py-2 rounded-md\">\n                Get Started\n              </button>\n            </div>\n          </div>\n        </div>\n      </nav>\n\n      \x7b/* Hero Section */\x7d\n      <section className=\"bg-gradient-to-br from-blue-50 to-indigo-100\">\n        <div className=\"max-w-7xl mx-auto px-4 sm:px-6 lg:px-8 py-24\">\n          <div className=\"text-center\">\n            <h1 className=\"text-4xl tracking-tight font-extrabold text-gray-900 sm:text-5xl md:text-6xl\">\n              <span className=\"block\">Build faster with</span>\n              <span className=\"block text-blue-600\">React + Vite + Tailwind</span>\n            </h1>\n            <p className=\"mt-3 max-w-md mx-auto text-base text-gray-500 sm:text-lg md:mt-5 md:text-xl md:max-w-3xl\">\n              Create modern React applications with the power of Vite and the beauty of Tailwind CSS. \n              Get started in seconds, not hours.\n            </p>\n            <div className=\"mt-5 max-w-md mx-auto sm:flex sm:justify-center md:mt-8\">\n              <div className=\"rounded-md shadow\">\n                <button className=\"w-full flex items-center justify-center px-8 py-3 border border-transparent text-base font-medium rounded-md text-white bg-blue-600 hover:bg-blue-700 md:py-4 md:text-lg md:px-10\">\n                  Get Started\n                </button>\n              </div>\n              <div className=\"mt-3 rounded-md shadow sm:mt-0 sm:ml-3\">\n                <button className=\"w-full flex items-center justify-center px-8 py-3 border border-transparent text-base font-medium rounded-md text-blue-600 bg-white hover:bg-gray-50 md:py-4 md:text-lg md:px-10\">\n                  Learn More\n                </button>\n              </div>\n            </div>\n          </div>\n        </div>\n      </section>\n\n      \x7b/* Features Section */\x7d\n      <section id=\"features\" className=\"h-[45vh] flex items-center justify-center py-16 bg-white\">\n        <div className=\"max-w-7xl mx-auto px-4 sm:px-6 lg:px-8\">\n          <div className=\"text-center\">\n            <h2 className=\"text-3xl font-extrabold text-gray-900\">Features</h2>\n            <p className=\"mt-4 text-lg text-gray-500\">Everything you need to build modern web applications</p>\n          </div>\n          <div className=\"mt-12 grid grid-cols-1 gap-8 sm:grid-cols-2 lg:grid-cols-3\">\n            <div className=\"text-center\">\n              <div className=\"flex items-center justify-center h-12 w-12 rounded-md bg-blue-500 text-white mx-auto\">\n                <span className=\"font-bold\">⚡</span>\n              </div>\n              <h3 className=\"mt-4 text-lg font-medium text-gray-900\">Lightning Fast</h3>\n              <p className=\"mt-2 text-base text-gray-500\">Powered by Vite for instant hot reload and optimized builds</p>\n            </div>\n            <div className=\"text-center\">\n              <div className=\"flex items-center justify-center h-12 w-12 rounded-md bg-blue-500 text-white mx-auto\">\n                <span className=\"font-bold\">🎨</span>\n              </div>\n              <h3 className=\"mt-4 text-lg font-medium text-gray-900\">Beautiful Design</h3>\n              <p className=\"mt-2 text-base text-gray-500\">Tailwind CSS for rapid UI development and consistent styling</p>\n            </div>\n            <div className=\"text-center\">\n              <div className=\"flex items-center justify-center h-12 w-12 rounded-md bg-blue-500 text-white mx-auto\">\n                <span className=\"font-bold\">⚛️</span>\n              </div>\n              <h3 className=\"mt-4 text-lg font-medium text-gray-900\">Modern React</h3>\n              <p className=\"mt-2 text-base text-gray-500\">Latest React features with TypeScript support</p>\n            </div>\n          </div>\n        </div>\n      </section>\n\n      \x7b/* Footer */\x7d\n      <footer className=\"bg-gray-50 mt-2\">\n        <div className=\"max-w-7xl mx-auto py-12 px-4 sm:px-6 lg:px-8\">\n          <div className=\"text-center text-gray-500\">\n            <p>&copy; 2024 ReVite. Built with React + Vite + Tailwind CSS.</p>\n          </div>\n        </div>\n      </footer>\n    </div>\n  )\n\x7d\n\nexport default App"

/-- The `blog` application-component text blob from the source template map. -/
def blogTemplate : String := "function App() \x7b\n  const posts = [\n    \x7b\n      id: 1,\n      title: \"Getting Started with React + Vite + Tailwind\",\n      excerpt: \"Learn how to build modern web applications with this powerful combination of tools.\",\n      date: \"Mar 16, 2024\",\n      readTime: \"5 min read\"\n    \x7d,\n    \x7b\n      id: 2,\n      title: \"Advanced Tailwind CSS Techniques\",\n      excerpt: \"Discover advanced patterns and techniques for building beautiful UIs with Tailwind CSS.\",\n      date: \"Mar 12, 2024\",\n      readTime: \"8 min read\"\n    \x7d,\n    \x7b\n      id: 3,\n      title: \"Vite: The Next Generation Build Tool\",\n      excerpt: \"Why Vite is revolutionizing the way we build and develop web applications.\",\n      date: \"Mar 8, 2024\",\n      readTime: \"6 min read\"\n    \x7d\n  ];\n\n  return (\n    <div className=\"min-h-screen bg-gray-50\">\n      \x7b/* Header */\x7d\n      <header className=\"bg-white shadow-sm\">\n        <div className=\"max-w-4xl mx-auto h-[80px] flex items-center justify-between px-4 sm:px-6 lg:px-8 \">\n          <div>\n            <h1 className=\"text-3xl font-bold text-gray-900\">My Blog</h1>\n          </div>\n          <nav className=\"hidden md:flex space-x-8\">\n            <a href=\"#\" className=\"text-gray-500 hover:text-gray-900\">Home</a>\n            <a href=\"#\" className=\"text-gray-500 hover:text-gray-900\">About</a>\n            <a href=\"#\" className=\"text-gray-500 hover:text-gray-900\">Contact</a>\n          </nav>\n        </div>\n      </header>\n\n      \x7b/* Main Content */\x7d\n      <main className=\"max-w-4xl mx-auto px-4 sm:px-6 lg:px-8 py-12 h-[calc(100vh-233px)]\">\n        \x7b/* Featured Post */\x7d\n        <article className=\"bg-white rounded-lg shadow-sm overflow-hidden mb-12\">\n          <div className=\"p-8\">\n            <div className=\"flex items-center text-sm text-gray-500 mb-4\">\n              <span className=\"bg-blue-100 text-blue-800 px-2 py-1 rounded-full text-xs font-medium mr-3\">\n                Featured\n              </span>\n              <span>Mar 16, 2024</span>\n              <span className=\"mx-2\">•</span>\n              <span>5 min read</span>\n            </div>\n            <h2 className=\"text-3xl font-bold text-gray-900 mb-4\">\n              Getting Started with React + Vite + Tailwind\n            </h2>\n            <p className=\"text-gray-600 text-lg mb-6\">\n              Learn how to build modern web applications with this powerful combination of tools. \n              We\x27ll cover everything from setup to deployment, including best practices and common patterns.\n            </p>\n            <button className=\"text-blue-600 hover:text-blue-800 font-medium\">\n              Read more →\n            </button>\n          </div>\n        </article>\n\n        \x7b/* Blog Posts Grid */\x7d\n        <div className=\"grid gap-8 md:grid-cols-2\">\n          \x7bposts.slice(1).map((post) => (\n            <article key=\x7bpost.id\x7d className=\"bg-white rounded-lg shadow-sm overflow-hidden\">\n              <div className=\"p-6\">\n                <div className=\"flex items-center text-sm text-gray-500 mb-3\">\n                  <span>\x7bpost.date\x7d</span>\n                  <span className=\"mx-2\">•</span>\n                  <span>\x7bpost.readTime\x7d</span>\n                </div>\n                <h3 className=\"text-xl font-semibold text-gray-900 mb-3\">\n                  \x7bpost.title\x7d\n                </h3>\n                <p className=\"text-gray-600 mb-4\">\n                  \x7bpost.excerpt\x7d\n                </p>\n                <button className=\"text-blue-600 hover:text-blue-800 font-medium text-sm\">\n                  Read more →\n                </button>\n              </div>\n            </article>\n          ))\x7d\n        </div>\n\n        \x7b/* Newsletter Signup */\x7d\n        <div className=\"bg-blue-50 rounded-lg p-8 mt-12 text-center\">\n          <h3 className=\"text-2xl font-bold text-gray-900 mb-4\">Stay Updated</h3>\n          <p className=\"text-gray-600 mb-6\">Get the latest posts delivered right to your inbox</p>\n          <div className=\"max-w-md mx-auto flex gap-4\">\n            <input\n              type=\"email\"\n              placeholder=\"Enter your email\"\n              className=\"flex-1 px-4 py-2 border border-gray-300 rounded-md focus:outline-none focus:ring-2 focus:ring-blue-500\"\n            />\n            <button className=\"bg-blue-600 hover:bg-blue-700 text-white px-6 py-2 rounded-md font-medium\">\n              Subscribe\n            </button>\n          </div>\n        </div>\n      </main>\n\n      \x7b/* Footer */\x7d\n      <footer className=\"bg-white border-t border-gray-200 mt-16 h-[80px]\">\n        <div className=\"max-w-4xl mx-auto px-4 sm:px-6 lg:px-8 py-8\">\n          <div className=\"text-center text-gray-500\">\n            <p>&copy; 2024 My Blog. Built with React + Vite + Tailwind CSS.</p>\n          </div>\n        </div>\n      </footer>\n    </div>\n  )\n\x7d\n\nexport default App"

/-- The own properties of `generateAppTemplate`'s `templates` object literal:
exactly the four keys declared in the source.  A bracket read that misses
these continues into the prototype chain — see `templatesRead` for the full
lookup. -/
def templatesLookup (templateType : String) : Option String :=
  if templateType = "basic" then some basicTemplate
  else if templateType = "dashboard" then some dashboardTemplate
  else if templateType = "landing" then some landingTemplate
  else if templateType = "blog" then some blogTemplate
  else none

/-- The string restriction of `generateAppTemplate(templateType)`
(`templates[templateType] || templates.basic`) under own-property lookup.
This is the value `installTailwind` writes; it agrees with the full
prototype-aware model `generateAppTemplateJs` on every input whose read does
not hit an `Object.prototype` member (`generateAppTemplateJs_agrees`) — in
particular on the four validated ids, the only values that reach
`installTailwind`. -/
def generateAppTemplate (templateType : String) : String :=
  (templatesLookup templateType).getD basicTemplate

/-- The string-keyed members of `Object.prototype`, inherited by every plain
object literal: reading any of these names off the `templates` literal yields
the inherited function (or, for the `__proto__` accessor, an object), which
is truthy.  Reading any other absent key yields `undefined`, the only falsy
lookup result. -/
def objectPrototypeMemberNames : List String :=
  ["constructor", "hasOwnProperty", "isPrototypeOf", "propertyIsEnumerable",
   "toLocaleString", "toString", "valueOf", "__proto__",
   "__defineGetter__", "__defineSetter__", "__lookupGetter__",
   "__lookupSetter__"]

/-- The result of a JS bracket read on the `templates` object literal: an own
text blob, a truthy non-string member inherited from `Object.prototype`, or
`undefined`. -/
inductive JsLookupResult where
  | blob (text : String)
  | protoMember (name : String)
  | undef
deriving DecidableEq, Repr

/-- JS bracket read `templates[templateType]`: own properties first, then the
prototype chain (`Object.prototype`), then `undefined`. -/
def templatesRead (templateType : String) : JsLookupResult :=
  match templatesLookup templateType with
  | some text => JsLookupResult.blob text
  | none =>
    if objectPrototypeMemberNames.contains templateType then
      JsLookupResult.protoMember templateType
    else JsLookupResult.undef

/-- JS truthiness of a lookup result: the own blobs are non-empty strings and
the inherited prototype members are functions/objects, all truthy; only
`undefined` is falsy. -/
def JsLookupResult.truthy : JsLookupResult → Bool
  | JsLookupResult.undef => false
  | _ => true

/-- The full model of `generateAppTemplate(templateType)`:
`templates[templateType] || templates.basic`, where `||` keeps any truthy
left operand.  The `basic` fallback therefore fires only when the key is
absent from both the object literal and `Object.prototype`; for an
`Object.prototype` member name the inherited truthy value — not a text
blob — is returned. -/
def generateAppTemplateJs (templateType : String) : JsLookupResult :=
  let v := templatesRead templateType
  if v.truthy then v else JsLookupResult.blob basicTemplate

/-- Anchor text of the first substitution in `installTailwind`:
the Vite import line of the generated build configuration. -/
def importAnchor : String := "import \x7b defineConfig \x7d from \x27vite\x27"

/-- Replacement text of the first substitution in `installTailwind`. -/
def importReplacement : String :=
  "import \x7b defineConfig \x7d from \x27vite\x27\nimport tailwindcss from \x27@tailwindcss/vite\x27"

/-- Anchor text of the second substitution in `installTailwind`:
the default plugin-array literal. -/
def pluginsAnchor : String := "plugins: [react()]"

/-- Replacement text of the second substitution in `installTailwind`. -/
def pluginsReplacement : String := "plugins: [react(), tailwindcss()]"

/-- The two-step in-memory patch `installTailwind` applies to the Vite build
configuration.  The source guards the first replacement behind
`if (isTypeScript)` with textually identical branches; that shape is kept. -/
def patchViteConfig (isTypeScript : Bool) (viteConfig : String) : String :=
  let step1 :=
    if isTypeScript then jsReplace viteConfig importAnchor importReplacement
    else jsReplace viteConfig importAnchor importReplacement
  jsReplace step1 pluginsAnchor pluginsReplacement

theorem jsReplace_first_occurrence_example : jsReplace "abcabc" "b" "XY" = "aXYcabc" := by decide

theorem patchViteConfig_example :
    patchViteConfig false "import \x7b defineConfig \x7d from \x27vite\x27\nplugins: [react()]\n" =
    "import \x7b defineConfig \x7d from \x27vite\x27\nimport tailwindcss from \x27@tailwindcss/vite\x27\nplugins: [react(), tailwindcss()]\n" := by
  decide

/-- The option record produced by the argument parser: `--typescript` (alias
`-ts`), `--no-tailwind` (so `tailwind` is `false` exactly when the flag was
given), and `--template` (alias `-t`, defaulting to `basic`). -/
structure Options where
  typescript : Bool
  tailwind : Bool
  template : String
deriving DecidableEq, Repr

/-- Everything a single run observes from outside: the current working
directory and its entry list, the verdict of the package-name validator on the
positional argument, whether the resolved target path already exists, the
user's answer to the confirmation prompt, the exit codes of the three spawned
external processes, the text read from the generated Vite build configuration,
and whether the generator produced `src/App.css`. -/
structure Env where
  cwd : String
  cwdEntries : List String
  nameValidForNewPackages : Bool
  targetExists : Bool
  promptContinue : Bool
  viteExit : Nat
  tailwindNpmExit : Nat
  installNpmExit : Nat
  viteConfigContent : String
  appCssExists : Bool
deriving DecidableEq, Repr

/-- One observable effect of a run, in program order: directory listing,
confirmation prompt, existence check, child-process spawn (with argument list
and working directory), file read, file write (with the full content written),
file removal. -/
inductive Effect where
  | readDir (path : String)
  | promptConfirm (message : String)
  | pathCheck (path : String)
  | spawn (command : String) (args : List String) (cwd : String)
  | readFile (path : String)
  | writeFile (path : String) (content : String)
  | removeFile (path : String)
deriving DecidableEq, Repr

/-- How `createProject` finishes: the four early `return` paths (invalid
template, invalid name, existing directory, declined prompt), normal
completion, or a thrown error (a rejected stage promise) that the top-level
`.action` handler catches. -/
inductive Outcome where
  | invalidTemplate (message : String)
  | invalidName
  | dirExists (message : String)
  | cancelled (message : String)
  | completed
  | failed (message : String)
deriving DecidableEq, Repr

/-- Process exit status: the `.action` wrapper calls `process.exit(1)` only
when `createProject` throws; every other path lets the process finish with the
default status 0. -/
def cliExitCode : Outcome → Nat
  | Outcome.failed _ => 1
  | _ => 0

/-- `validTemplates` from `createProject`. -/
def validTemplates : List String := ["basic", "dashboard", "landing", "blog"]

/-- The invalid-template diagnostic printed by `createProject`. -/
def invalidTemplateMsg (t : String) : String :=
  "Invalid template \"" ++ t ++ "\". Available templates: " ++
    String.intercalate ", " validTemplates

/-- The existing-directory diagnostic printed by `createProject`. -/
def dirExistsMsg (dir : String) : String :=
  "Directory \"" ++ dir ++ "\" already exists."

/-- The confirmation-prompt message. -/
def promptMsg : String := "Current directory is not empty. Continue anyway?"

/-- The cancellation message printed when the prompt is declined. -/
def cancelMsg : String := "Operation cancelled."

/-- The message of the error `createViteProject` rejects with on a nonzero
generator exit code.  Note it contains the exit code but not the command
line. -/
def viteFailMsg (code : Nat) : String :=
  "Vite creation failed with exit code " ++ toString code ++
    ". Please check your internet connection and try again."

/-- The message of the error `runCommand` rejects with on a nonzero exit
code: it quotes the full command line. -/
def runCommandMsg (command : String) (args : List String) (code : Nat) : String :=
  "Command \"" ++ command ++ " " ++ String.intercalate " " args ++
    "\" failed with exit code " ++ toString code

/-- The full command line of a spawned process, as quoted by `runCommandMsg`. -/
def commandLine (command : String) (args : List String) : String :=
  command ++ " " ++ String.intercalate " " args

/-- Model of `path.join(a, b)`. -/
def pathJoin (a b : String) : String := a ++ "/" ++ b

/-- Model of `path.resolve(rel)` for the relative names accepted by the name
validator, resolved against the current working directory. -/
def pathResolve (cwd rel : String) : String := cwd ++ "/" ++ rel

/-- Model of `path.dirname` on a slash-separated path. -/
def pathDirname (p : String) : String :=
  String.intercalate "/" (p.splitOn "/").dropLast

/-- Model of `path.basename` on a slash-separated path. -/
def pathBasename (p : String) : String :=
  (p.splitOn "/").getLastD p

/-- The `create-vite` argument list built by `createViteProject`. -/
def viteArgs (targetName template : String) : List String :=
  ["create-vite@latest", targetName, "--template", template, "--yes"]

/-- The template selector passed to the generator:
`options.typescript ? 'react-ts' : 'react'`. -/
def viteTemplateArg (opts : Options) : String :=
  if opts.typescript then "react-ts" else "react"

/-- `createViteProject`: spawns `npx create-vite@latest` (target `.` when the
resolved path is the current working directory, the project name otherwise) in
the parent of the target, and rejects with `viteFailMsg` on a nonzero exit
code.  Returns the effects performed and `some message` on rejection. -/
def createViteProject (projectPath cwd projectName template : String)
    (exitCode : Nat) : List Effect × Option String :=
  let targetName := if projectPath = cwd then "." else projectName
  ([Effect.spawn "npx" (viteArgs targetName template) (pathDirname projectPath)],
   if exitCode = 0 then none else some (viteFailMsg exitCode))

/-- The argument list of the package-manager invocation that adds the two
Tailwind packages. -/
def tailwindInstallArgs : List String :=
  ["install", "tailwindcss", "@tailwindcss/vite"]

/-- The full content `installTailwind` writes to `src/index.css`. -/
def tailwindImports : String := "@import \"tailwindcss\";\n"

/-- The build-configuration filename chosen by `installTailwind`. -/
def viteConfigFileName (isTypeScript : Bool) : String :=
  if isTypeScript then "vite.config.ts" else "vite.config.js"

/-- The application entry component filename chosen by `installTailwind`. -/
def appFileName (isTypeScript : Bool) : String :=
  if isTypeScript then "App.tsx" else "App.jsx"

/-- `installTailwind`: adds the two Tailwind packages (aborting with
`runCommand`'s error when that exits nonzero), patches the build
configuration, overwrites `src/index.css` and the application entry component,
and removes `src/App.css` when present.  Returns the effects performed and
`some message` on rejection. -/
def installTailwind (projectPath : String) (isTypeScript : Bool)
    (templateType : String) (env : Env) : List Effect × Option String :=
  let npmSpawn := Effect.spawn "npm" tailwindInstallArgs projectPath
  if env.tailwindNpmExit ≠ 0 then
    ([npmSpawn], some (runCommandMsg "npm" tailwindInstallArgs env.tailwindNpmExit))
  else
    let viteConfigPath := pathJoin projectPath (viteConfigFileName isTypeScript)
    let patched := patchViteConfig isTypeScript env.viteConfigContent
    let cssPath := pathJoin projectPath "src/index.css"
    let appPath := pathJoin (pathJoin projectPath "src") (appFileName isTypeScript)
    let appCssPath := pathJoin projectPath "src/App.css"
    ([npmSpawn,
      Effect.readFile viteConfigPath,
      Effect.writeFile viteConfigPath patched,
      Effect.writeFile cssPath tailwindImports,
      Effect.writeFile appPath (generateAppTemplate templateType)] ++
      (if env.appCssExists then [Effect.removeFile appCssPath] else []),
     none)

/-- `installDependencies`: `npm install` in the target, rejecting with
`runCommand`'s error on a nonzero exit code. -/
def installDependencies (projectPath : String) (env : Env) :
    List Effect × Option String :=
  ([Effect.spawn "npm" ["install"] projectPath],
   if env.installNpmExit = 0 then none
   else some (runCommandMsg "npm" ["install"] env.installNpmExit))

/-- The `try` block of `createProject` after target resolution: generator,
optional Tailwind stage, dependency install, in strict order; the first
rejection aborts the rest and becomes the thrown error. -/
def runStages (projectPath projectName : String) (opts : Options) (env : Env) :
    List Effect × Outcome :=
  let vite := createViteProject projectPath env.cwd projectName
    (viteTemplateArg opts) env.viteExit
  match vite.2 with
  | some msg => (vite.1, Outcome.failed msg)
  | none =>
    if opts.tailwind then
      let tw := installTailwind projectPath opts.typescript opts.template env
      match tw.2 with
      | some msg => (vite.1 ++ tw.1, Outcome.failed msg)
      | none =>
        let inst := installDependencies projectPath env
        match inst.2 with
        | some msg => (vite.1 ++ tw.1 ++ inst.1, Outcome.failed msg)
        | none => (vite.1 ++ tw.1 ++ inst.1, Outcome.completed)
    else
      let inst := installDependencies projectPath env
      match inst.2 with
      | some msg => (vite.1 ++ inst.1, Outcome.failed msg)
      | none => (vite.1 ++ inst.1, Outcome.completed)

/-- JS `s.startsWith(pre)`. -/
def strStartsWith (s pre : String) : Bool :=
  leadsWith pre.data s.data

/-- The entries of the current working directory whose names do not start
with `.` (`files.filter(file => !file.startsWith('.'))`). -/
def relevantEntries (env : Env) : List String :=
  env.cwdEntries.filter (fun f => !(strStartsWith f "."))

/-- The current-working-directory branch of `createProject`: list the
directory, prompt when a non-hidden entry exists, cancel when the prompt is
declined, otherwise run the stages with the directory itself as target. -/
def cwdFlow (opts : Options) (env : Env) : List Effect × Outcome :=
  if (relevantEntries env).length > 0 then
    if env.promptContinue then
      let r := runStages env.cwd (pathBasename env.cwd) opts env
      ([Effect.readDir env.cwd, Effect.promptConfirm promptMsg] ++ r.1, r.2)
    else
      ([Effect.readDir env.cwd, Effect.promptConfirm promptMsg],
       Outcome.cancelled cancelMsg)
  else
    let r := runStages env.cwd (pathBasename env.cwd) opts env
    ([Effect.readDir env.cwd] ++ r.1, r.2)

/-- The named-directory branch of `createProject`: validate the name, resolve
the path, reject an existing target, otherwise run the stages. -/
def namedFlow (dir : String) (opts : Options) (env : Env) :
    List Effect × Outcome :=
  if !env.nameValidForNewPackages then ([], Outcome.invalidName)
  else
    let projectPath := pathResolve env.cwd dir
    if env.targetExists then
      ([Effect.pathCheck projectPath], Outcome.dirExists (dirExistsMsg dir))
    else
      let r := runStages projectPath dir opts env
      ([Effect.pathCheck projectPath] ++ r.1, r.2)

/-- `createProject(projectDirectory, options)`: template validation first,
then the current-directory branch (argument omitted, empty — falsy — or `.`)
or the named-directory branch. -/
def createProject (projectDirectory : Option String) (opts : Options)
    (env : Env) : List Effect × Outcome :=
  if !(validTemplates.contains opts.template) then
    ([], Outcome.invalidTemplate (invalidTemplateMsg opts.template))
  else
    match projectDirectory with
    | none => cwdFlow opts env
    | some dir =>
      if dir = "" || dir = "." then cwdFlow opts env
      else namedFlow dir opts env

/-- An effect that mutates the filesystem: a file write or a file removal. -/
def isMutation : Effect → Bool
  | Effect.writeFile _ _ => true
  | Effect.removeFile _ => true
  | _ => false

/-- An external-process invocation. -/
def isSpawnEffect : Effect → Bool
  | Effect.spawn _ _ _ => true
  | _ => false

/-- A confirmation prompt. -/
def isPromptEffect : Effect → Bool
  | Effect.promptConfirm _ => true
  | _ => false

/-- A file read. -/
def isReadFileEffect : Effect → Bool
  | Effect.readFile _ => true
  | _ => false

/-- The package-manager invocation that adds the Tailwind packages. -/
def isTailwindInstallSpawn : Effect → Bool
  | Effect.spawn command args _ => command = "npm" && args = tailwindInstallArgs
  | _ => false

/-- The write effects of a run, in order. -/
def writeEffects (effects : List Effect) : List Effect :=
  effects.filter isMutation

/-- The outcomes produced by the pre-generation input checks: invalid
template, invalid project name, pre-existing target directory. -/
def isInputError : Outcome → Bool
  | Outcome.invalidTemplate _ => true
  | Outcome.invalidName => true
  | Outcome.dirExists _ => true
  | _ => false

/-- The argument designates the current working directory: omitted, the empty
string (falsy in JS) or the sentinel `.`. -/
def targetsCurrentDir : Option String → Bool
  | none => true
  | some s => s = "" || s = "."

/-- The current-directory branch proceeds past its precondition check: either
no non-hidden entry exists, or the user confirmed. -/
def cwdResolutionOk (env : Env) : Bool :=
  if (relevantEntries env).length > 0 then env.promptContinue else true

/-- Target resolution reaches the generator stage. -/
def passesResolution : Option String → Env → Bool
  | none, env => cwdResolutionOk env
  | some dir, env =>
    if dir = "" || dir = "." then cwdResolutionOk env
    else env.nameValidForNewPackages && !env.targetExists

/-- The resolved absolute target path of a run. -/
def resolvedPath : Option String → Env → String
  | none, env => env.cwd
  | some dir, env =>
    if dir = "" || dir = "." then env.cwd else pathResolve env.cwd dir

/-- The resolved project name of a run. -/
def resolvedName : Option String → Env → String
  | none, env => pathBasename env.cwd
  | some dir, env =>
    if dir = "" || dir = "." then pathBasename env.cwd else dir

/-- A generated Vite build configuration containing both anchor texts. -/
def sampleViteConfig : String :=
  "import \x7b defineConfig \x7d from \x27vite\x27\nimport react from \x27@vitejs/plugin-react\x27\n\nexport default defineConfig(\x7b\n  plugins: [react()],\n\x7d)\n"

/-- A benign environment: empty current directory, valid name, free target,
confirming user, all external processes succeeding. -/
def envOk : Env :=
  ⟨"/home/user", [], true, false, true, 0, 0, 0, sampleViteConfig, true⟩

/-- Default options: JavaScript, Tailwind enabled, `basic` template. -/
def optsBasic : Options := ⟨false, true, "basic"⟩

lemma replaceFirstChars_of_not_occurs (pat repl : List Char) :
    ∀ s : List Char, occursIn pat s = false → replaceFirstChars pat repl s = s := by
  intro s
  induction s with
  | nil =>
    intro h
    simp only [occursIn] at h
    simp [replaceFirstChars, h]
  | cons c cs ih =>
    intro h
    simp only [occursIn, Bool.or_eq_false_iff] at h
    simp only [replaceFirstChars, h.1, Bool.false_eq_true, if_false]
    rw [ih h.2]

lemma jsReplace_of_not_contains {s pat repl : String}
    (h : containsStr s pat = false) : jsReplace s pat repl = s := by
  unfold containsStr at h
  unfold jsReplace
  rw [replaceFirstChars_of_not_occurs _ _ _ h]

lemma patchViteConfig_of_no_anchors (ts : Bool) {cfg : String}
    (h1 : containsStr cfg importAnchor = false)
    (h2 : containsStr cfg pluginsAnchor = false) :
    patchViteConfig ts cfg = cfg := by
  unfold patchViteConfig
  cases ts <;>
    simp only [if_true, if_false, Bool.false_eq_true, Bool.true_eq_false] <;>
    rw [jsReplace_of_not_contains h1, jsReplace_of_not_contains h2]

lemma leadsWith_append (p r : List Char) : leadsWith p (p ++ r) = true := by
  induction p with
  | nil => rfl
  | cons a as ih => simp [leadsWith, ih]

lemma occursIn_of_leadsWith {p s : List Char} (h : leadsWith p s = true) :
    occursIn p s = true := by
  cases s with
  | nil =>
    cases p with
    | nil => rfl
    | cons a as => simp [leadsWith] at h
  | cons c cs => simp [occursIn, h]

lemma occursIn_append_right {p t : List Char} (h : occursIn p t = true) :
    ∀ s, occursIn p (s ++ t) = true := by
  intro s
  induction s with
  | nil => simpa
  | cons c cs ih => simp [occursIn, ih]

lemma containsStr_append_middle (a b c : String) :
    containsStr (a ++ (b ++ c)) b = true := by
  unfold containsStr
  rw [String.data_append, String.data_append]
  exact occursIn_append_right (occursIn_of_leadsWith (leadsWith_append _ _)) _

lemma viteFailMsg_contains_code (code : Nat) :
    containsStr (viteFailMsg code) (toString code) = true := by
  unfold viteFailMsg
  rw [String.append_assoc]
  exact containsStr_append_middle _ _ _

lemma runStages_not_input_error (P N : String) (opts : Options) (env : Env) :
    isInputError (runStages P N opts env).2 = false := by
  simp only [runStages]
  repeat' split
  all_goals rfl

lemma installTailwind_no_prompt (P : String) (ts : Bool) (tid : String)
    (env : Env) :
    ∀ e ∈ (installTailwind P ts tid env).1, isPromptEffect e = false := by
  intro e he
  unfold installTailwind at he
  split at he
  · simp at he
    subst he
    rfl
  · split at he
    · simp at he
      rcases he with rfl | rfl | rfl | rfl | rfl | rfl <;> rfl
    · simp at he
      rcases he with rfl | rfl | rfl | rfl | rfl <;> rfl

lemma createViteProject_effects (P C N T : String) (x : Nat) :
    (createViteProject P C N T x).1 =
      [Effect.spawn "npx" (viteArgs (if P = C then "." else N) T)
        (pathDirname P)] := rfl

lemma installDependencies_effects (P : String) (env : Env) :
    (installDependencies P env).1 = [Effect.spawn "npm" ["install"] P] := rfl

lemma runStages_no_prompt (P N : String) (opts : Options) (env : Env) :
    ∀ e ∈ (runStages P N opts env).1, isPromptEffect e = false := by
  intro e he
  simp only [runStages] at he
  repeat' split at he
  all_goals
    simp only [createViteProject_effects, installDependencies_effects,
      List.mem_append, List.mem_singleton] at he
  all_goals try casesm* _ ∨ _
  all_goals
    first
      | (exact installTailwind_no_prompt _ _ _ _ _ (by assumption))
      | (subst e; rfl)

lemma runStages_vite_fail (P N : String) (opts : Options) (env : Env)
    (h : env.viteExit ≠ 0) :
    runStages P N opts env =
      ([Effect.spawn "npx" (viteArgs (if P = env.cwd then "." else N)
          (viteTemplateArg opts)) (pathDirname P)],
       Outcome.failed (viteFailMsg env.viteExit)) := by
  simp only [runStages, createViteProject]
  simp [h]

lemma cwdFlow_stages (opts : Options) (env : Env)
    (h : cwdResolutionOk env = true) :
    ∃ pre : List Effect,
      cwdFlow opts env =
        (pre ++ (runStages env.cwd (pathBasename env.cwd) opts env).1,
         (runStages env.cwd (pathBasename env.cwd) opts env).2) ∧
      ∀ e ∈ pre, isMutation e = false ∧ isSpawnEffect e = false ∧
        isReadFileEffect e = false := by
  unfold cwdResolutionOk at h
  unfold cwdFlow
  split at h
  · rename_i hlen
    rw [if_pos hlen, if_pos h]
    refine ⟨[Effect.readDir env.cwd, Effect.promptConfirm promptMsg], rfl, ?_⟩
    intro e he
    simp only [List.mem_cons, List.not_mem_nil, or_false] at he
    rcases he with rfl | rfl <;> exact ⟨rfl, rfl, rfl⟩
  · rename_i hlen
    rw [if_neg hlen]
    refine ⟨[Effect.readDir env.cwd], rfl, ?_⟩
    intro e he
    simp only [List.mem_singleton] at he
    subst he
    exact ⟨rfl, rfl, rfl⟩

lemma createProject_stages (d : Option String) (opts : Options) (env : Env)
    (hT : validTemplates.contains opts.template = true)
    (hR : passesResolution d env = true) :
    ∃ pre : List Effect,
      createProject d opts env =
        (pre ++ (runStages (resolvedPath d env) (resolvedName d env) opts env).1,
         (runStages (resolvedPath d env) (resolvedName d env) opts env).2) ∧
      ∀ e ∈ pre, isMutation e = false ∧ isSpawnEffect e = false ∧
        isReadFileEffect e = false := by
  have hT' : opts.template ∈ validTemplates := by simpa using hT
  cases d with
  | none =>
    rcases cwdFlow_stages opts env hR with ⟨pre, heq, hpre⟩
    refine ⟨pre, ?_, hpre⟩
    simpa [createProject, hT', resolvedPath, resolvedName] using heq
  | some dir =>
    by_cases hd : (dir = "" || dir = ".") = true
    · simp only [passesResolution] at hR
      rw [if_pos hd] at hR
      rcases cwdFlow_stages opts env hR with ⟨pre, heq, hpre⟩
      refine ⟨pre, ?_, hpre⟩
      have hrp : resolvedPath (some dir) env = env.cwd := by
        simp [resolvedPath, hd]
      have hrn : resolvedName (some dir) env = pathBasename env.cwd := by
        simp [resolvedName, hd]
      rw [hrp, hrn]
      simpa [createProject, hT', hd] using heq
    · simp only [passesResolution] at hR
      rw [if_neg hd] at hR
      simp only [Bool.and_eq_true, Bool.not_eq_true'] at hR
      refine ⟨[Effect.pathCheck (pathResolve env.cwd dir)], ?_, ?_⟩
      · have hrp : resolvedPath (some dir) env = pathResolve env.cwd dir := by
          simp [resolvedPath, hd]
        have hrn : resolvedName (some dir) env = dir := by
          simp [resolvedName, hd]
        rw [hrp, hrn]
        simp [createProject, hT', hd, namedFlow, hR.1, hR.2]
      · intro e he
        simp only [List.mem_singleton] at he
        subst he
        exact ⟨rfl, rfl, rfl⟩

lemma createProject_cwd (d : Option String) (opts : Options) (env : Env)
    (hT : validTemplates.contains opts.template = true)
    (hd : targetsCurrentDir d = true) :
    createProject d opts env = cwdFlow opts env := by
  have hT' : opts.template ∈ validTemplates := by simpa using hT
  cases d with
  | none => simp [createProject, hT']
  | some s =>
    simp only [targetsCurrentDir] at hd
    simp [createProject, hT', hd]

lemma createProject_named (dir : String) (opts : Options) (env : Env)
    (hT : validTemplates.contains opts.template = true)
    (hd : (dir = "" || dir = ".") = false) :
    createProject (some dir) opts env = namedFlow dir opts env := by
  have hT' : opts.template ∈ validTemplates := by simpa using hT
  simp [createProject, hT', hd]

lemma cwdResolutionOk_false {env : Env} (h : cwdResolutionOk env = false) :
    (relevantEntries env).length > 0 ∧ env.promptContinue = false := by
  unfold cwdResolutionOk at h
  split at h
  · exact ⟨by assumption, h⟩
  · simp at h

lemma cwdFlow_cancelled (opts : Options) (env : Env)
    (hlen : (relevantEntries env).length > 0)
    (hno : env.promptContinue = false) :
    cwdFlow opts env =
      ([Effect.readDir env.cwd, Effect.promptConfirm promptMsg],
       Outcome.cancelled cancelMsg) := by
  unfold cwdFlow
  rw [if_pos hlen, if_neg (by simp [hno])]

lemma relevant_iff_any (env : Env) :
    ((relevantEntries env).length > 0) ↔
      env.cwdEntries.any (fun f => !(strStartsWith f ".")) = true := by
  simp only [gt_iff_lt, List.length_pos]
  unfold relevantEntries
  rw [Ne, List.filter_eq_nil_iff, List.any_eq_true]
  constructor
  · intro h
    by_contra hc
    push_neg at hc
    exact h fun a ha hpa => hc a ha hpa
  · rintro ⟨x, hxl, hpx⟩ hall
    exact hall x hxl hpx

lemma runStages_prompt_false (P N : String) (opts : Options) (env : Env) :
    (runStages P N opts env).1.any isPromptEffect = false := by
  rw [List.any_eq_false]
  intro x hx
  simp [runStages_no_prompt P N opts env x hx]

lemma str_append_left_cancel {p s t : String} (h : p ++ s = p ++ t) : s = t := by
  apply String.ext
  have h2 := congrArg String.data h
  rw [String.data_append, String.data_append] at h2
  exact List.append_cancel_left h2

lemma append_ne (p : String) {s t : String} (h : s ≠ t) : p ++ s ≠ p ++ t :=
  fun e => h (str_append_left_cancel e)

lemma viteConfig_ne_css (P : String) (ts : Bool) :
    pathJoin P (viteConfigFileName ts) ≠ pathJoin P "src/index.css" := by
  cases ts <;> exact append_ne (P ++ "/") (by decide)

lemma app_path_eq (P f : String) :
    pathJoin (pathJoin P "src") f = (P ++ "/") ++ ("src" ++ "/" ++ f) := by
  unfold pathJoin
  rw [String.append_assoc (P ++ "/") "src" "/",
    String.append_assoc (P ++ "/") ("src" ++ "/") f]

lemma app_ne_css (P : String) (ts : Bool) :
    pathJoin (pathJoin P "src") (appFileName ts) ≠ pathJoin P "src/index.css" := by
  rw [app_path_eq]
  cases ts <;> exact append_ne (P ++ "/") (by decide)

lemma app_ne_viteConfig (P : String) (ts ts' : Bool) :
    pathJoin (pathJoin P "src") (appFileName ts) ≠
      pathJoin P (viteConfigFileName ts') := by
  rw [app_path_eq]
  cases ts <;> cases ts' <;> exact append_ne (P ++ "/") (by decide)

/-- The contents written to path `p` by a list of effects, in order. -/
def writesTo (effects : List Effect) (p : String) : List String :=
  effects.filterMap (fun e => match e with
    | Effect.writeFile q c => if q = p then some c else none
    | _ => none)

lemma writesTo_append (es fs : List Effect) (p : String) :
    writesTo (es ++ fs) p = writesTo es p ++ writesTo fs p :=
  List.filterMap_append es fs _

lemma writesTo_eq_nil_of_no_mutation {es : List Effect}
    (h : ∀ e ∈ es, isMutation e = false) (p : String) : writesTo es p = [] := by
  induction es with
  | nil => rfl
  | cons a as ih =>
    have ha := h a (by simp)
    have htail := ih fun e he => h e (by simp [he])
    cases a with
    | writeFile q c => exact absurd ha (by simp [isMutation])
    | _ => simpa [writesTo, List.filterMap_cons] using htail

lemma installTailwind_success (P : String) (ts : Bool) (tid : String)
    (env : Env) (h : env.tailwindNpmExit = 0) :
    installTailwind P ts tid env =
      ([Effect.spawn "npm" tailwindInstallArgs P,
        Effect.readFile (pathJoin P (viteConfigFileName ts)),
        Effect.writeFile (pathJoin P (viteConfigFileName ts))
          (patchViteConfig ts env.viteConfigContent),
        Effect.writeFile (pathJoin P "src/index.css") tailwindImports,
        Effect.writeFile (pathJoin (pathJoin P "src") (appFileName ts))
          (generateAppTemplate tid)] ++
        (if env.appCssExists then
          [Effect.removeFile (pathJoin P "src/App.css")] else []),
       none) := by
  unfold installTailwind
  rw [if_neg (by simp [h])]

lemma runStages_effects_of_success (P N : String) (opts : Options) (env : Env)
    (htw : opts.tailwind = true) (hv : env.viteExit = 0)
    (hn : env.tailwindNpmExit = 0) :
    (runStages P N opts env).1 =
      (createViteProject P env.cwd N (viteTemplateArg opts) env.viteExit).1 ++
        (installTailwind P opts.typescript opts.template env).1 ++
        (installDependencies P env).1 := by
  have hvite : (createViteProject P env.cwd N (viteTemplateArg opts)
      env.viteExit).2 = none := by
    simp [createViteProject, hv]
  have htw2 : (installTailwind P opts.typescript opts.template env).2 =
      none := by
    rw [installTailwind_success _ _ _ _ hn]
  simp only [runStages, hvite, htw, if_true]
  cases h2 : (installDependencies P env).2 <;> simp [htw2, h2]

lemma runStages_no_tailwind_effects (P N : String) (opts : Options) (env : Env)
    (h : opts.tailwind = false) :
    ∀ e ∈ (runStages P N opts env).1,
      isMutation e = false ∧ isReadFileEffect e = false ∧
        isTailwindInstallSpawn e = false := by
  intro e he
  simp only [runStages, h, Bool.false_eq_true, if_false] at he
  repeat' split at he
  all_goals
    simp only [createViteProject_effects, installDependencies_effects,
      List.mem_append, List.mem_singleton] at he
  all_goals try casesm* _ ∨ _
  all_goals
    subst e
  all_goals
    exact ⟨rfl, rfl, by simp [isTailwindInstallSpawn, tailwindInstallArgs]⟩

/-- An environment in which the package-name validator rejects the argument. -/
def envNameInvalid : Env :=
  ⟨"/home/user", [], false, false, true, 0, 0, 0, sampleViteConfig, true⟩

/-- An environment in which the resolved target path already exists. -/
def envTargetExists : Env :=
  ⟨"/home/user", [], true, true, true, 0, 0, 0, sampleViteConfig, true⟩

/-- An environment in which the generator exits with code 1. -/
def envViteFail : Env :=
  ⟨"/home/user", [], true, false, true, 1, 0, 0, sampleViteConfig, true⟩

/-- A non-empty current directory with a declining user. -/
def envNonEmptyDecline : Env :=
  ⟨"/home/user", ["src", ".git"], true, false, false, 0, 0, 0,
    sampleViteConfig, true⟩

lemma generateAppTemplateJs_agrees (t : String)
    (h : objectPrototypeMemberNames.contains t = false) :
    generateAppTemplateJs t = JsLookupResult.blob (generateAppTemplate t) := by
  have hm : t ∉ objectPrototypeMemberNames := by simpa using h
  unfold generateAppTemplateJs templatesRead generateAppTemplate templatesLookup
  by_cases h1 : t = "basic"
  · simp [h1, JsLookupResult.truthy]
  by_cases h2 : t = "dashboard"
  · simp [h1, h2, JsLookupResult.truthy]
  by_cases h3 : t = "landing"
  · simp [h1, h2, h3, JsLookupResult.truthy]
  by_cases h4 : t = "blog"
  · simp [h1, h2, h3, h4, JsLookupResult.truthy]
  simp [h1, h2, h3, h4, hm, JsLookupResult.truthy]

/-- C7 counterexample: at the concrete input `constructor` (likewise
`toString`) the bracket lookup returns the member inherited from
`Object.prototype` — a truthy function, not a text blob — so the `||`
fallback does not fire and the result differs from the `basic` blob,
refuting the claim's universal fallback clause. -/
theorem template_catalog_proto_counterexample :
    generateAppTemplateJs "constructor" =
      JsLookupResult.protoMember "constructor" ∧
    generateAppTemplateJs "constructor" ≠ JsLookupResult.blob basicTemplate ∧
    (∀ s : String,
      JsLookupResult.protoMember "constructor" ≠ JsLookupResult.blob s) ∧
    generateAppTemplateJs "toString" = JsLookupResult.protoMember "toString" :=
  ⟨rfl, by simp [generateAppTemplateJs, templatesRead, templatesLookup,
    objectPrototypeMemberNames, JsLookupResult.truthy],
   fun s => by simp, rfl⟩

/-- C7 amended: the catalog lookup returns the respective blob for each of
the four ids, the four blobs are pairwise distinct and non-empty, and every
input outside the four ids that is not an `Object.prototype` member name
yields exactly the `basic` blob; for an `Object.prototype` member name the
lookup yields the inherited truthy member instead, so the fallback does not
fire.  On the four validated ids the full model agrees with the string-level
`generateAppTemplate` written by the patch stage. -/
theorem template_catalog_with_proto_fallback :
    (generateAppTemplateJs "basic" = JsLookupResult.blob basicTemplate ∧
     generateAppTemplateJs "dashboard" = JsLookupResult.blob dashboardTemplate ∧
     generateAppTemplateJs "landing" = JsLookupResult.blob landingTemplate ∧
     generateAppTemplateJs "blog" = JsLookupResult.blob blogTemplate ∧
     basicTemplate ≠ dashboardTemplate ∧ basicTemplate ≠ landingTemplate ∧
     basicTemplate ≠ blogTemplate ∧ dashboardTemplate ≠ landingTemplate ∧
     dashboardTemplate ≠ blogTemplate ∧ landingTemplate ≠ blogTemplate ∧
     basicTemplate ≠ "" ∧ dashboardTemplate ≠ "" ∧
     landingTemplate ≠ "" ∧ blogTemplate ≠ "") ∧
    (∀ t : String, validTemplates.contains t = false →
      objectPrototypeMemberNames.contains t = false →
      generateAppTemplateJs t = JsLookupResult.blob basicTemplate) ∧
    (∀ t : String, objectPrototypeMemberNames.contains t = true →
      generateAppTemplateJs t = JsLookupResult.protoMember t) ∧
    (∀ t : String, validTemplates.contains t = true →
      generateAppTemplateJs t = JsLookupResult.blob (generateAppTemplate t)) := by
  refine ⟨⟨rfl, rfl, rfl, rfl, by decide⟩, ?_, ?_, ?_⟩
  · intro t ht hp
    have hm : t ∉ objectPrototypeMemberNames := by simpa using hp
    have ht' : ¬ (t = "basic" ∨ t = "dashboard" ∨ t = "landing" ∨
        t = "blog") := by
      simpa [validTemplates] using ht
    push_neg at ht'
    simp [generateAppTemplateJs, templatesRead, templatesLookup,
      JsLookupResult.truthy, ht'.1, ht'.2.1, ht'.2.2.1, ht'.2.2.2, hm]
  · intro t hp
    have hm : t ∈ objectPrototypeMemberNames := by simpa using hp
    have ht' : ¬ (t = "basic" ∨ t = "dashboard" ∨ t = "landing" ∨
        t = "blog") := by
      intro hc
      rcases hc with rfl | rfl | rfl | rfl <;> exact absurd hp (by decide)
    push_neg at ht'
    simp [generateAppTemplateJs, templatesRead, templatesLookup,
      JsLookupResult.truthy, ht'.1, ht'.2.1, ht'.2.2.1, ht'.2.2.2, hm]
  · intro t ht
    have ht' : t = "basic" ∨ t = "dashboard" ∨ t = "landing" ∨ t = "blog" := by
      simpa [validTemplates] using ht
    rcases ht' with rfl | rfl | rfl | rfl <;> rfl

/-- C7 amended witness: the three quantified clauses applied at the concrete
ids `vue` (plain unknown), `toString` (an `Object.prototype` member) and
`dashboard` (a validated id). -/
theorem template_catalog_with_proto_fallback_witness :
    validTemplates.contains "vue" = false ∧
    objectPrototypeMemberNames.contains "vue" = false ∧
    objectPrototypeMemberNames.contains "toString" = true ∧
    validTemplates.contains "dashboard" = true ∧
    (generateAppTemplateJs "vue" = JsLookupResult.blob basicTemplate ∧
     generateAppTemplateJs "toString" =
       JsLookupResult.protoMember "toString" ∧
     generateAppTemplateJs "dashboard" =
       JsLookupResult.blob (generateAppTemplate "dashboard")) :=
  ⟨by decide, by decide, by decide, by decide,
   template_catalog_with_proto_fallback.2.1 "vue" (by decide) (by decide),
   template_catalog_with_proto_fallback.2.2.1 "toString" (by decide),
   template_catalog_with_proto_fallback.2.2.2 "dashboard" (by decide)⟩

/-- C1 (code-bug evidence): each of the three input-error paths — unknown
template id, invalid project name, pre-existing target directory — returns
normally from `createProject` without throwing, so the process terminates
with exit status 0, although the error diagnostic was printed.  Only thrown
errors reach the `process.exit(1)` call in the top-level handler. -/
theorem input_error_exit_status_zero :
    createProject (some "my-app") ⟨false, true, "fancy"⟩ envOk =
      ([], Outcome.invalidTemplate (invalidTemplateMsg "fancy")) ∧
    cliExitCode
      (createProject (some "my-app") ⟨false, true, "fancy"⟩ envOk).2 = 0 ∧
    createProject (some "My App") optsBasic envNameInvalid =
      ([], Outcome.invalidName) ∧
    cliExitCode
      (createProject (some "My App") optsBasic envNameInvalid).2 = 0 ∧
    createProject (some "existing") optsBasic envTargetExists =
      ([Effect.pathCheck (pathResolve "/home/user" "existing")],
       Outcome.dirExists (dirExistsMsg "existing")) ∧
    cliExitCode
      (createProject (some "existing") optsBasic envTargetExists).2 = 0 := by
  decide

/-- C2 counterexample: on a run whose generator invocation exits with code 1,
the stage aborts with exit status 1, but the reported error message does not
carry the failing command line (`npx create-vite@latest my-app --template
react --yes`) — it does not even contain the command name `create-vite`. -/
theorem generator_failure_counterexample :
    (createProject (some "my-app") optsBasic envViteFail).2 =
      Outcome.failed (viteFailMsg 1) ∧
    cliExitCode (createProject (some "my-app") optsBasic envViteFail).2 = 1 ∧
    containsStr (viteFailMsg 1)
      (commandLine "npx" (viteArgs "my-app" "react")) = false ∧
    containsStr (viteFailMsg 1) "create-vite" = false := by
  decide

/-- C6: declining the non-empty-directory confirmation prompt cancels the
run: the cancellation message outcome is produced, the exit status is 0, and
the only effects performed are the directory listing and the prompt itself —
no filesystem mutation and no external-process invocation. -/
theorem decline_prompt_cancels (d : Option String) (opts : Options) (env : Env)
    (hT : validTemplates.contains opts.template = true)
    (hd : targetsCurrentDir d = true)
    (hne : env.cwdEntries.any (fun f => !(strStartsWith f ".")) = true)
    (hno : env.promptContinue = false) :
    createProject d opts env =
      ([Effect.readDir env.cwd, Effect.promptConfirm promptMsg],
       Outcome.cancelled cancelMsg) ∧
    cliExitCode (createProject d opts env).2 = 0 ∧
    ∀ e ∈ (createProject d opts env).1,
      isMutation e = false ∧ isSpawnEffect e = false := by
  have hlen := (relevant_iff_any env).mpr hne
  have heq := (createProject_cwd d opts env hT hd).trans
    (cwdFlow_cancelled opts env hlen hno)
  refine ⟨heq, by rw [heq]; rfl, ?_⟩
  rw [heq]
  intro e he
  simp only [List.mem_cons, List.not_mem_nil, or_false] at he
  rcases he with rfl | rfl <;> exact ⟨rfl, rfl⟩

/-- C6 witness: a concrete declined run in a directory holding `src` and
`.git`. -/
theorem decline_prompt_cancels_witness :
    validTemplates.contains optsBasic.template = true ∧
    targetsCurrentDir (none : Option String) = true ∧
    envNonEmptyDecline.cwdEntries.any (fun f => !(strStartsWith f ".")) = true ∧
    envNonEmptyDecline.promptContinue = false ∧
    (createProject none optsBasic envNonEmptyDecline =
      ([Effect.readDir envNonEmptyDecline.cwd, Effect.promptConfirm promptMsg],
       Outcome.cancelled cancelMsg) ∧
     cliExitCode (createProject none optsBasic envNonEmptyDecline).2 = 0 ∧
     ∀ e ∈ (createProject none optsBasic envNonEmptyDecline).1,
       isMutation e = false ∧ isSpawnEffect e = false) :=
  ⟨by decide, by decide, by decide, by decide,
   decline_prompt_cancels none optsBasic envNonEmptyDecline (by decide)
     (by decide) (by decide) (by decide)⟩

/-- C5: when the target is the current working directory, the confirmation
prompt fires exactly when the directory has at least one entry whose name
does not start with `.` — only-hidden content never prompts, any non-hidden
entry always prompts. -/
theorem prompt_iff_non_hidden_entry (d : Option String) (opts : Options)
    (env : Env)
    (hT : validTemplates.contains opts.template = true)
    (hd : targetsCurrentDir d = true) :
    ((createProject d opts env).1.any isPromptEffect = true) ↔
      env.cwdEntries.any (fun f => !(strStartsWith f ".")) = true := by
  rw [createProject_cwd d opts env hT hd]
  rw [← relevant_iff_any]
  unfold cwdFlow
  by_cases hlen : (relevantEntries env).length > 0
  · rw [if_pos hlen]
    simp only [hlen, iff_true]
    by_cases hpc : env.promptContinue = true
    · rw [if_pos hpc]
      simp [isPromptEffect]
    · rw [if_neg hpc]
      simp [isPromptEffect]
  · rw [if_neg hlen]
    simp only [hlen, iff_false]
    simp [runStages_prompt_false, isPromptEffect]

/-- C5 witness: a concrete current-directory run over entries
`["src", ".git"]` — the prompt fires and a non-hidden entry exists. -/
theorem prompt_iff_non_hidden_entry_witness :
    validTemplates.contains optsBasic.template = true ∧
    targetsCurrentDir (some ".") = true ∧
    (((createProject (some ".") optsBasic envNonEmptyDecline).1.any
        isPromptEffect = true) ↔
      envNonEmptyDecline.cwdEntries.any
        (fun f => !(strStartsWith f ".")) = true) :=
  ⟨by decide, by decide,
   prompt_iff_non_hidden_entry (some ".") optsBasic envNonEmptyDecline
     (by decide) (by decide)⟩

/-- C4: whenever a run ends in one of the three input-error outcomes, its
effect trace contains no filesystem mutation, no external-process spawn and
no file read — the failure is detected before any of those happen. -/
theorem input_errors_no_side_effects (d : Option String) (opts : Options)
    (env : Env)
    (h : isInputError (createProject d opts env).2 = true) :
    ∀ e ∈ (createProject d opts env).1,
      isMutation e = false ∧ isSpawnEffect e = false ∧
        isReadFileEffect e = false := by
  by_cases hT : validTemplates.contains opts.template = true
  · by_cases hR : passesResolution d env = true
    · exfalso
      rcases createProject_stages d opts env hT hR with ⟨pre, heq, -⟩
      rw [heq] at h
      exact absurd h (by simp [runStages_not_input_error])
    · cases d with
      | none =>
        exfalso
        have hco : cwdResolutionOk env = false := by
          cases hcc : cwdResolutionOk env
          · rfl
          · exact absurd hcc hR
        rcases cwdResolutionOk_false hco with ⟨hlen, hno⟩
        rw [createProject_cwd none opts env hT rfl,
          cwdFlow_cancelled opts env hlen hno] at h
        simp [isInputError] at h
      | some dir =>
        by_cases hdd : (dir = "" || dir = ".") = true
        · exfalso
          have hco : cwdResolutionOk env = false := by
            cases hcc : cwdResolutionOk env
            · rfl
            · refine absurd ?_ hR
              simp only [passesResolution, if_pos hdd]
              exact hcc
          rcases cwdResolutionOk_false hco with ⟨hlen, hno⟩
          have hdt : targetsCurrentDir (some dir) = true := by
            simpa [targetsCurrentDir] using hdd
          rw [createProject_cwd (some dir) opts env hT hdt,
            cwdFlow_cancelled opts env hlen hno] at h
          simp [isInputError] at h
        · have hdf : (dir = "" || dir = ".") = false := by
            cases hx : (dir = "" || dir = ".")
            · rfl
            · exact absurd hx hdd
          intro e he
          rw [createProject_named dir opts env hT hdf] at he
          unfold namedFlow at he
          split at he
          · simp at he
          · split at he
            · simp only [List.mem_singleton] at he
              subst he
              exact ⟨rfl, rfl, rfl⟩
            · exfalso
              rename_i hnv hte
              apply hR
              simp only [passesResolution, hdf, Bool.false_eq_true, if_false]
              simp only [Bool.not_eq_true] at hnv
              simp only [Bool.not_eq_true] at hte
              simp at hnv
              simp [hnv, hte]
  · have hTf : validTemplates.contains opts.template = false := by
      cases hx : validTemplates.contains opts.template
      · rfl
      · exact absurd hx hT
    have heq : createProject d opts env =
        ([], Outcome.invalidTemplate (invalidTemplateMsg opts.template)) := by
      unfold createProject
      rw [if_pos (by rw [hTf]; rfl)]
    rw [heq]
    intro e he
    simp at he

/-- C4 witness: the pre-existing-target input error at a concrete input. -/
theorem input_errors_no_side_effects_witness :
    isInputError
      (createProject (some "existing") optsBasic envTargetExists).2 = true ∧
    ∀ e ∈ (createProject (some "existing") optsBasic envTargetExists).1,
      isMutation e = false ∧ isSpawnEffect e = false ∧
        isReadFileEffect e = false :=
  ⟨by decide,
   input_errors_no_side_effects (some "existing") optsBasic envTargetExists
     (by decide)⟩

/-- C2 amended: on any run that reaches the generator stage and whose
generator invocation exits nonzero, the run aborts before any patch or
install effect (no filesystem mutation, no file read, no package-manager
spawn), the thrown error gives exit status 1, and the reported message
carries the generator's exit code (but, per the counterexample, not its
command line). -/
theorem generator_failure_aborts (d : Option String) (opts : Options)
    (env : Env)
    (hT : validTemplates.contains opts.template = true)
    (hR : passesResolution d env = true)
    (hv : env.viteExit ≠ 0) :
    (createProject d opts env).2 =
      Outcome.failed (viteFailMsg env.viteExit) ∧
    cliExitCode (createProject d opts env).2 = 1 ∧
    containsStr (viteFailMsg env.viteExit) (toString env.viteExit) = true ∧
    (∀ e ∈ (createProject d opts env).1,
      isMutation e = false ∧ isReadFileEffect e = false) ∧
    (∀ args cwd,
      Effect.spawn "npm" args cwd ∉ (createProject d opts env).1) := by
  rcases createProject_stages d opts env hT hR with ⟨pre, heq, hpre⟩
  rw [runStages_vite_fail _ _ _ _ hv] at heq
  refine ⟨?_, ?_, viteFailMsg_contains_code _, ?_, ?_⟩
  · rw [heq]
  · rw [heq]; rfl
  · rw [heq]
    intro e he
    rcases List.mem_append.mp he with hm | hm
    · exact ⟨(hpre e hm).1, (hpre e hm).2.2⟩
    · simp only [List.mem_singleton] at hm
      subst hm
      exact ⟨rfl, rfl⟩
  · rw [heq]
    intro args cwd hmem
    rcases List.mem_append.mp hmem with hm | hm
    · have hs := (hpre _ hm).2.1
      simp [isSpawnEffect] at hs
    · simp at hm

/-- C2 amended witness: the concrete generator-failure run. -/
theorem generator_failure_aborts_witness :
    validTemplates.contains optsBasic.template = true ∧
    passesResolution (some "my-app") envViteFail = true ∧
    envViteFail.viteExit ≠ 0 ∧
    ((createProject (some "my-app") optsBasic envViteFail).2 =
      Outcome.failed (viteFailMsg envViteFail.viteExit) ∧
     cliExitCode
       (createProject (some "my-app") optsBasic envViteFail).2 = 1 ∧
     containsStr (viteFailMsg envViteFail.viteExit)
       (toString envViteFail.viteExit) = true ∧
     (∀ e ∈ (createProject (some "my-app") optsBasic envViteFail).1,
       isMutation e = false ∧ isReadFileEffect e = false) ∧
     (∀ args cwd,
       Effect.spawn "npm" args cwd ∉
         (createProject (some "my-app") optsBasic envViteFail).1)) :=
  ⟨by decide, by decide, by decide,
   generator_failure_aborts (some "my-app") optsBasic envViteFail (by decide)
     (by decide) (by decide)⟩

lemma createProject_early_or_stages (d : Option String) (opts : Options)
    (env : Env) :
    (∀ e ∈ (createProject d opts env).1,
      isMutation e = false ∧ isSpawnEffect e = false ∧
        isReadFileEffect e = false) ∨
    (validTemplates.contains opts.template = true ∧
      passesResolution d env = true) := by
  by_cases hT : validTemplates.contains opts.template = true
  · by_cases hR : passesResolution d env = true
    · exact Or.inr ⟨hT, hR⟩
    · left
      cases d with
      | none =>
        have hco : cwdResolutionOk env = false := by
          cases hcc : cwdResolutionOk env
          · rfl
          · exact absurd hcc hR
        rcases cwdResolutionOk_false hco with ⟨hlen, hno⟩
        rw [createProject_cwd none opts env hT rfl,
          cwdFlow_cancelled opts env hlen hno]
        intro e he
        simp only [List.mem_cons, List.not_mem_nil, or_false] at he
        rcases he with rfl | rfl <;> exact ⟨rfl, rfl, rfl⟩
      | some dir =>
        by_cases hdd : (dir = "" || dir = ".") = true
        · have hco : cwdResolutionOk env = false := by
            cases hcc : cwdResolutionOk env
            · rfl
            · refine absurd ?_ hR
              simp only [passesResolution, if_pos hdd]
              exact hcc
          rcases cwdResolutionOk_false hco with ⟨hlen, hno⟩
          have hdt : targetsCurrentDir (some dir) = true := by
            simpa [targetsCurrentDir] using hdd
          rw [createProject_cwd (some dir) opts env hT hdt,
            cwdFlow_cancelled opts env hlen hno]
          intro e he
          simp only [List.mem_cons, List.not_mem_nil, or_false] at he
          rcases he with rfl | rfl <;> exact ⟨rfl, rfl, rfl⟩
        · have hdf : (dir = "" || dir = ".") = false := by
            cases hx : (dir = "" || dir = ".")
            · rfl
            · exact absurd hx hdd
          intro e he
          rw [createProject_named dir opts env hT hdf] at he
          unfold namedFlow at he
          split at he
          · simp at he
          · split at he
            · simp only [List.mem_singleton] at he
              subst he
              exact ⟨rfl, rfl, rfl⟩
            · exfalso
              rename_i hnv hte
              apply hR
              simp only [passesResolution, hdf, Bool.false_eq_true, if_false]
              simp only [Bool.not_eq_true] at hnv hte
              simp at hnv
              simp [hnv, hte]
  · left
    have hTf : validTemplates.contains opts.template = false := by
      cases hx : validTemplates.contains opts.template
      · rfl
      · exact absurd hx hT
    have heq : createProject d opts env =
        ([], Outcome.invalidTemplate (invalidTemplateMsg opts.template)) := by
      unfold createProject
      rw [if_pos (by rw [hTf]; rfl)]
    rw [heq]
    intro e he
    simp at he

/-- C8: with the Tailwind flag disabled (`--no-tailwind`) the patch stage
never runs: no run performs any filesystem mutation or file read through the
CLI itself, and the package-manager invocation adding the Tailwind packages
never happens. -/
theorem no_tailwind_skips_patch (d : Option String) (opts : Options)
    (env : Env) (h : opts.tailwind = false) :
    ∀ e ∈ (createProject d opts env).1,
      isMutation e = false ∧ isReadFileEffect e = false ∧
        isTailwindInstallSpawn e = false := by
  intro e he
  rcases createProject_early_or_stages d opts env with hben | ⟨hT, hR⟩
  · refine ⟨(hben e he).1, (hben e he).2.2, ?_⟩
    have hs := (hben e he).2.1
    cases e <;> simp [isTailwindInstallSpawn]
    simp [isSpawnEffect] at hs
  · rcases createProject_stages d opts env hT hR with ⟨pre, heq, hpre⟩
    rw [heq] at he
    rcases List.mem_append.mp he with hm | hm
    · refine ⟨(hpre e hm).1, (hpre e hm).2.2, ?_⟩
      have hs := (hpre e hm).2.1
      cases e <;> simp [isTailwindInstallSpawn]
      simp [isSpawnEffect] at hs
    · exact runStages_no_tailwind_effects _ _ _ _ h e hm

/-- C8 witness: a concrete `--no-tailwind` run. -/
theorem no_tailwind_skips_patch_witness :
    (Options.mk false false "basic").tailwind = false ∧
    ∀ e ∈ (createProject (some "my-app")
        (Options.mk false false "basic") envOk).1,
      isMutation e = false ∧ isReadFileEffect e = false ∧
        isTailwindInstallSpawn e = false :=
  ⟨rfl,
   no_tailwind_skips_patch (some "my-app") (Options.mk false false "basic")
     envOk rfl⟩

/-- C9: after a completed patch stage, exactly one write targets
`src/index.css` and its content is exactly the single Tailwind import line
followed by a newline; exactly one write targets the application entry
component and its content is exactly the selected catalog blob; and
`src/App.css` is removed precisely when it was present. -/
theorem patch_stage_writes (d : Option String) (opts : Options) (env : Env)
    (hT : validTemplates.contains opts.template = true)
    (hR : passesResolution d env = true)
    (htw : opts.tailwind = true)
    (hv : env.viteExit = 0)
    (hn : env.tailwindNpmExit = 0) :
    writesTo (createProject d opts env).1
        (pathJoin (resolvedPath d env) "src/index.css") = [tailwindImports] ∧
    tailwindImports = "@import \"tailwindcss\";\n" ∧
    writesTo (createProject d opts env).1
        (pathJoin (pathJoin (resolvedPath d env) "src")
          (appFileName opts.typescript)) =
      [generateAppTemplate opts.template] ∧
    (Effect.removeFile (pathJoin (resolvedPath d env) "src/App.css") ∈
        (createProject d opts env).1 ↔ env.appCssExists = true) := by
  rcases createProject_stages d opts env hT hR with ⟨pre, heq, hpre⟩
  rw [runStages_effects_of_success _ _ _ _ htw hv hn,
    installTailwind_success _ _ _ _ hn,
    createViteProject_effects, installDependencies_effects] at heq
  have hmatch : ∀ p : String, ∀ a ∈ pre,
      (match a with
        | Effect.writeFile q c => if q = p then some c else none
        | _ => none) = none := by
    intro p a ha
    have hm := (hpre a ha).1
    cases a <;> first | rfl | simp [isMutation] at hm
  have hnomem : Effect.removeFile
      (pathJoin (resolvedPath d env) "src/App.css") ∉ pre := by
    intro hm
    have := (hpre _ hm).1
    simp [isMutation] at this
  refine ⟨?_, rfl, ?_, ?_⟩
  · rw [heq]
    cases henv : env.appCssExists <;>
      simp [henv, writesTo, List.filterMap_append,
        viteConfig_ne_css (resolvedPath d env) opts.typescript,
        app_ne_css (resolvedPath d env) opts.typescript] <;>
      exact fun a ha => hmatch _ a ha
  · rw [heq]
    cases henv : env.appCssExists <;>
      simp [henv, writesTo, List.filterMap_append,
        Ne.symm (app_ne_viteConfig (resolvedPath d env) opts.typescript
          opts.typescript),
        Ne.symm (app_ne_css (resolvedPath d env) opts.typescript)] <;>
      exact fun a ha => hmatch _ a ha
  · rw [heq]
    cases henv : env.appCssExists <;> simp [henv, hnomem]

/-- C9 witness: the concrete fully-successful JavaScript `basic` run. -/
theorem patch_stage_writes_witness :
    validTemplates.contains optsBasic.template = true ∧
    passesResolution (some "my-app") envOk = true ∧
    optsBasic.tailwind = true ∧
    envOk.viteExit = 0 ∧
    envOk.tailwindNpmExit = 0 ∧
    (writesTo (createProject (some "my-app") optsBasic envOk).1
        (pathJoin (resolvedPath (some "my-app") envOk) "src/index.css") =
      [tailwindImports] ∧
     tailwindImports = "@import \"tailwindcss\";\n" ∧
     writesTo (createProject (some "my-app") optsBasic envOk).1
        (pathJoin (pathJoin (resolvedPath (some "my-app") envOk) "src")
          (appFileName optsBasic.typescript)) =
      [generateAppTemplate optsBasic.template] ∧
     (Effect.removeFile
        (pathJoin (resolvedPath (some "my-app") envOk) "src/App.css") ∈
        (createProject (some "my-app") optsBasic envOk).1 ↔
      envOk.appCssExists = true)) :=
  ⟨by decide, by decide, rfl, rfl, rfl,
   patch_stage_writes (some "my-app") optsBasic envOk (by decide) (by decide)
     rfl rfl rfl⟩

/-- A build configuration containing neither anchor text. -/
def envNoAnchors : Env :=
  ⟨"/home/user", [], true, false, true, 0, 0, 0,
    "export default \x7b\x7d\n", true⟩

/-- C3: when neither anchor text (the Vite import line, the plugin-array
literal) occurs in the build-config content, the textual substitution is the
identity, the patch stage still reports success (no error is raised), and the
build-config file is written back with content equal to what was read. -/
theorem patch_noop_when_anchors_absent (P : String) (ts : Bool) (tid : String)
    (env : Env)
    (h1 : containsStr env.viteConfigContent importAnchor = false)
    (h2 : containsStr env.viteConfigContent pluginsAnchor = false)
    (hn : env.tailwindNpmExit = 0) :
    patchViteConfig ts env.viteConfigContent = env.viteConfigContent ∧
    (installTailwind P ts tid env).2 = none ∧
    Effect.writeFile (pathJoin P (viteConfigFileName ts))
        env.viteConfigContent ∈ (installTailwind P ts tid env).1 := by
  have hp := patchViteConfig_of_no_anchors ts h1 h2
  refine ⟨hp, ?_, ?_⟩
  · rw [installTailwind_success _ _ _ _ hn]
  · rw [installTailwind_success _ _ _ _ hn]
    simp [hp]

/-- C3 witness: a concrete anchor-free configuration text. -/
theorem patch_noop_when_anchors_absent_witness :
    containsStr envNoAnchors.viteConfigContent importAnchor = false ∧
    containsStr envNoAnchors.viteConfigContent pluginsAnchor = false ∧
    envNoAnchors.tailwindNpmExit = 0 ∧
    (patchViteConfig false envNoAnchors.viteConfigContent =
      envNoAnchors.viteConfigContent ∧
     (installTailwind "/home/user/my-app" false "basic" envNoAnchors).2 =
      none ∧
     Effect.writeFile
        (pathJoin "/home/user/my-app" (viteConfigFileName false))
        envNoAnchors.viteConfigContent ∈
      (installTailwind "/home/user/my-app" false "basic" envNoAnchors).1) :=
  ⟨by decide, by decide, rfl,
   patch_noop_when_anchors_absent "/home/user/my-app" false "basic"
     envNoAnchors (by decide) (by decide) rfl⟩

/-- The contents of the file writes of a list of effects, in order. -/
def writeContents (effects : List Effect) : List String :=
  effects.filterMap (fun e => match e with
    | Effect.writeFile _ c => some c
    | _ => none)

lemma pathJoin_inj (P : String) {a b : String} :
    (pathJoin P a = pathJoin P b) ↔ a = b :=
  ⟨fun h => str_append_left_cancel h, fun h => by rw [h]⟩

lemma appPath_eq_join (P f : String) :
    pathJoin (pathJoin P "src") f = pathJoin P ("src" ++ "/" ++ f) := by
  rw [app_path_eq]
  rfl

/-- C10: the typescript flag influences only filenames, never written
content: the build-config substitution is textually identical for both flag
values, the two runs write the same sequence of file contents, the
application entry component receives the same text (to `App.tsx` versus
`App.jsx`), and the build configuration receives the same patched text (to
`vite.config.ts` versus `vite.config.js`). -/
theorem typescript_flag_affects_only_filenames (P tid : String) (env : Env) :
    (∀ c : String, patchViteConfig true c = patchViteConfig false c) ∧
    writeContents (installTailwind P true tid env).1 =
      writeContents (installTailwind P false tid env).1 ∧
    writesTo (installTailwind P true tid env).1
        (pathJoin (pathJoin P "src") "App.tsx") =
      writesTo (installTailwind P false tid env).1
        (pathJoin (pathJoin P "src") "App.jsx") ∧
    writesTo (installTailwind P true tid env).1
        (pathJoin P "vite.config.ts") =
      writesTo (installTailwind P false tid env).1
        (pathJoin P "vite.config.js") := by
  have hpatch : ∀ c : String, patchViteConfig true c = patchViteConfig false c :=
    fun c => rfl
  refine ⟨hpatch, ?_, ?_, ?_⟩
  all_goals by_cases hn : env.tailwindNpmExit = 0
  · rw [installTailwind_success _ _ _ _ hn,
      installTailwind_success _ _ _ _ hn]
    cases henv : env.appCssExists <;>
      simp [henv, writeContents, List.filterMap_append,
        hpatch env.viteConfigContent]
  · simp [installTailwind, hn, writeContents]
  · rw [installTailwind_success _ _ _ _ hn,
      installTailwind_success _ _ _ _ hn]
    cases henv : env.appCssExists <;>
      simp [henv, writesTo, List.filterMap_cons, List.filterMap_append,
        appPath_eq_join, pathJoin_inj, appFileName, viteConfigFileName]
  · simp [installTailwind, hn, writesTo]
  · rw [installTailwind_success _ _ _ _ hn,
      installTailwind_success _ _ _ _ hn]
    cases henv : env.appCssExists <;>
      simp [henv, writesTo, List.filterMap_cons, List.filterMap_append,
        appPath_eq_join, pathJoin_inj, appFileName, viteConfigFileName,
        hpatch env.viteConfigContent]
  · simp [installTailwind, hn, writesTo]
